import Mathlib

/-!
Verification of the santu-agent docker log pipeline
(src/modules/backup/actions/docker_log_collector_service.py and
src/modules/backup/actions/docker_log_s3_cleanup.py) against its
natural-language specification.

The Python code is shallowly embedded: the per-line JSON filtering loop of
collect_docker_logs, the per-file upload loop of upload_to_s3 together with
cleanup_temp_files / cleanup_temp_logs / cleanup_old_logs, the upload gate of
the main scheduling loop, and the remote sweep cleanup_old_s3_logs of the
second script.  File-system effects are modelled as explicit state (a list of
local files, a content map), remote puts and deletes as boolean oracles
indexed by key.
-/

namespace SantuAgent

/-! ## Source line model (collect_docker_logs, lines 240-284)

One line of a docker json log file, as seen by the filtering loop:
json.loads either fails (jsonOk = false) or yields a record whose "time"
field is the string timeStr ("" when absent, matching the default of
log_entry.get), whose parse by datetime.fromisoformat either fails
(timeParse = none) or yields an epoch-second value, and whose "stream"
field is the string stream.  raw is the raw line text that gets appended to
the output lists. -/
structure SrcLine where
  raw : String
  jsonOk : Bool
  timeStr : String
  timeParse : Option Int
  stream : String
deriving DecidableEq, Repr

/-- one_hour_ago = time.time() - 3600 (line 234): the recency cutoff is one
hour before the current wall-clock time, in seconds. -/
def one_hour_ago (now : Int) : Int := now - 3600

/-- A line is kept by the loop of lines 240-284 exactly when it parses as
JSON, has a non-empty "time" field, the timestamp parses, and the timestamp
is >= the cutoff (lines 261-263: log_timestamp_seconds >= one_hour_ago). -/
def keepLine (cutoff : Int) (l : SrcLine) : Bool :=
  l.jsonOk && (l.timeStr != "") &&
    (match l.timeParse with
     | some ts => decide (cutoff ≤ ts)
     | none => false)

/-- The accumulation loop of lines 240-284: each kept line is appended to
all_logs, and additionally to error_logs when its stream is "stderr"
(lines 267-274); skipped lines (malformed JSON, missing or unparseable
timestamp, too old) are passed over with continue. -/
def collectLoop (cutoff : Int) :
    List SrcLine → List SrcLine × List SrcLine → List SrcLine × List SrcLine
  | [], acc => acc
  | line :: rest, (allLogs, errorLogs) =>
      if keepLine cutoff line then
        collectLoop cutoff rest
          (allLogs ++ [line],
           if line.stream = "stderr" then errorLogs ++ [line] else errorLogs)
      else
        collectLoop cutoff rest (allLogs, errorLogs)

/-- Per-file filtering of collect_docker_logs: starting from the empty
all_logs / error_logs lists (lines 230-231), run the loop over the file's
lines.  Returns (all_logs, error_logs). -/
def collectFilter (cutoff : Int) (lines : List SrcLine) :
    List SrcLine × List SrcLine :=
  collectLoop cutoff lines ([], [])

/-! ## Artifact naming and remote keys -/

/-- Zero-padded two-digit strftime field (as in %H and %M). -/
def pad2 (n : Nat) : String := if n < 10 then "0" ++ toString n else toString n

/-- time_str = now.strftime of the pattern %Hh%Mmin (lines 167, 227): the
artifact file name embeds the hour AND the minute of the collection tick. -/
def time_str (hour minute : Nat) : String :=
  pad2 hour ++ "h" ++ pad2 minute ++ "min"

/-- Artifact file names, time_str followed by _all.log or _errors.log
(lines 288-289, 306-307); kind is the string all or errors. -/
def artifact_file_name (hour minute : Nat) (kind : String) : String :=
  time_str hour minute ++ "_" ++ kind ++ ".log"

/-- Path of an artifact relative to log_base_dir:
container_name/date_str/file name (line 199). -/
def artifact_rel (container date : String) (hour minute : Nat)
    (kind : String) : String :=
  container ++ "/" ++ date ++ "/" ++ artifact_file_name hour minute kind

/-- s3_key = hostname, slash, path relative to log_base_dir, and the
appended .gz extension (lines 357-358). -/
def s3_key (host rel : String) : String := host ++ "/" ++ rel ++ ".gz"

/-! ## Local file set and the upload pass (upload_to_s3, lines 340-392) -/

/-- A local file under log_base_dir, identified by its path relative to the
base directory.  A gz node is the compressed copy produced by
with_suffix of .log.gz applied to a plaintext .log path (line 361); it is a
distinct path from every plaintext file since it carries the extra .gz
suffix, which the LocalFile constructor makes explicit. -/
inductive LocalFile where
  | plain (rel : String)
  | gz (rel : String)
deriving DecidableEq, Repr

/-- File creation (or overwrite) in the file set. -/
def insertFile (f : LocalFile) (fs : List LocalFile) : List LocalFile :=
  if f ∈ fs then fs else f :: fs

/-- State threaded through upload_to_s3: the set of local files under
log_base_dir, the keys successfully stored remotely, the keys for which a
put was attempted, and the pass-local uploaded_count (line 347). -/
structure UpAcc where
  files : List LocalFile
  remote : List String
  putCalls : List String
  uploadedCount : Nat
deriving DecidableEq, Repr

/-- One iteration of the upload loop (lines 349-382) for the plaintext
artifact f, with putOk the outcome oracle of the upload_file call per key:
skip if the file is gone (lines 352-354); compress to the .log.gz path
(lines 360-364); on a successful put delete the plaintext and compressed
copies (lines 374-376); on ClientError or NoCredentialsError delete only
the compressed copy (lines 378-382). -/
def upload_one (host : String) (putOk : String → Bool) (acc : UpAcc)
    (f : String) : UpAcc :=
  if LocalFile.plain f ∈ acc.files then
    let key := s3_key host f
    let files1 := insertFile (LocalFile.gz f) acc.files
    if putOk key then
      { files := (files1.erase (LocalFile.plain f)).erase (LocalFile.gz f)
        remote := acc.remote ++ [key]
        putCalls := acc.putCalls ++ [key]
        uploadedCount := acc.uploadedCount + 1 }
    else
      { files := files1.erase (LocalFile.gz f)
        remote := acc.remote
        putCalls := acc.putCalls ++ [key]
        uploadedCount := acc.uploadedCount }
  else acc

/-- cleanup_temp_files (lines 429-456): unlink every temp copy recorded in
temp_files_to_cleanup. -/
def cleanup_temp_files (temps : List String) (fs : List LocalFile) :
    List LocalFile :=
  fs.filter (fun f => decide (f ∉ temps.map LocalFile.plain))

/-- cleanup_temp_logs (lines 414-427): shutil.rmtree of log_base_dir, then
recreate it empty; every tracked file lives under log_base_dir, so the
result is the empty file set. -/
def cleanup_temp_logs (_fs : List LocalFile) : List LocalFile := []

/-- upload_to_s3 (lines 340-392): return immediately on an empty file list
(lines 342-344); otherwise run the per-file loop with uploaded_count
starting at 0 and, when at least one upload succeeded, call
cleanup_temp_files and then cleanup_temp_logs (lines 387-389). -/
def upload_to_s3 (host : String) (putOk : String → Bool)
    (temps : List String) (st : UpAcc) (log_files : List String) : UpAcc :=
  if log_files.isEmpty then st
  else
    let st1 := log_files.foldl (upload_one host putOk)
      { st with uploadedCount := 0 }
    if 0 < st1.uploadedCount then
      { st1 with files := cleanup_temp_logs (cleanup_temp_files temps st1.files) }
    else st1

/-! ## The main loop's upload tick (main, lines 493-511) -/

/-- Glob suffix of the all-stream artifacts. -/
def ALL_SUFFIX : String := "_all.log"

/-- Glob suffix of the error-stream artifacts. -/
def ERRORS_SUFFIX : String := "_errors.log"

/-- The rglob patterns *_all.log and *_errors.log match a file name exactly
when it ends with the literal suffix; the test is taken on the character
lists of the strings. -/
def globSuffix (r suf : String) : Bool := suf.data.isSuffixOf r.data

/-- cleanup_old_logs (lines 394-412): delete every *_all.log and
*_errors.log artifact older than the 7-day threshold; isOld r stands for
the mtime test current_time - st_mtime > max_age on path r. -/
def cleanup_old_logs (isOld : String → Bool) (fs : List LocalFile) :
    List LocalFile :=
  fs.filter (fun f =>
    match f with
    | LocalFile.plain r =>
        !((globSuffix r ALL_SUFFIX || globSuffix r ERRORS_SUFFIX) && isOld r)
    | LocalFile.gz _ => true)

/-- UPLOAD_INTERVAL = 1 * 3600 seconds (line 467). -/
def UPLOAD_INTERVAL : Nat := 3600

/-- The upload gate of the main loop (line 494):
current_time - last_upload_time >= UPLOAD_INTERVAL. -/
def mainUploadDue (currentTime lastUploadTime : Nat) : Bool :=
  decide (UPLOAD_INTERVAL ≤ currentTime - lastUploadTime)

/-- Minute of the hour for an epoch-second clock value. -/
def minuteOfHour (t : Nat) : Nat := t / 60 % 60

/-- Modelled from the spec: isUploadGraceWindow, "true only during a short
fixed number of minutes at the start of each hour".  The collector service
code contains no such predicate; the spec does not fix the length of the
window, so it is a parameter graceMinutes. -/
def isUploadGraceWindow (graceMinutes t : Nat) : Bool :=
  minuteOfHour t < graceMinutes

/-- The rglob discovery of lines 498-502: every *_all.log file found under
log_base_dir, followed by every *_errors.log file. -/
def mainLogFiles (fs : List LocalFile) : List String :=
  fs.filterMap (fun f => match f with
    | LocalFile.plain r => if globSuffix r ALL_SUFFIX then some r else none
    | LocalFile.gz _ => none) ++
  fs.filterMap (fun f => match f with
    | LocalFile.plain r => if globSuffix r ERRORS_SUFFIX then some r else none
    | LocalFile.gz _ => none)

/-- One upload tick of the main loop (lines 493-511): if the upload
interval has elapsed, gather the artifact files; if there are any, upload
them and then run the local age sweep cleanup_old_logs (lines 504-506);
otherwise do nothing. -/
def mainUploadTick (host : String) (putOk : String → Bool)
    (isOld : String → Bool) (temps : List String) (st : UpAcc)
    (currentTime lastUploadTime : Nat) : UpAcc :=
  if mainUploadDue currentTime lastUploadTime then
    if (mainLogFiles st.files).isEmpty then st
    else
      let res := upload_to_s3 host putOk temps st (mainLogFiles st.files)
      { res with files := cleanup_old_logs isOld res.files }
  else st

/-! ## The per-file harvest at the file-system level (collect_docker_logs) -/

/-- The per-file body of collect_docker_logs (lines 205-320) at the
file-system level: copy the source log file to the private temp path
built from the container id, the file name and the _temp suffix
(lines 208-212), record that path in temp_files_to_cleanup (line 213),
filter the lines (lines 240-284), and create the all / errors artifacts
when their line lists are non-empty (lines 287-295, 305-313).  No statement
of collect_docker_logs removes the temp copy. -/
def collect_one_file (fs : List LocalFile) (temps : List String)
    (tempRel allRel errRel : String) (cutoff : Int)
    (lines : List SrcLine) : List LocalFile × List String :=
  let fs := insertFile (LocalFile.plain tempRel) fs
  let temps := temps ++ [tempRel]
  let outs := collectFilter cutoff lines
  let fs := if outs.1.isEmpty then fs
            else insertFile (LocalFile.plain allRel) fs
  let fs := if outs.2.isEmpty then fs
            else insertFile (LocalFile.plain errRel) fs
  (fs, temps)

/-! ## Artifact contents (the write of lines 287-294) -/

/-- Contents of the local files, by path; none means the file is absent. -/
def FileContents := String → Option (List String)

/-- open of the path with mode w followed by writelines (lines 291-294 and
309-312): truncate and write, replacing any prior content of the path. -/
def write_w (fsc : FileContents) (path : String) (lines : List String) :
    FileContents :=
  fun p => if p = path then some lines else fsc p

/-- The all_logs write of one collection tick (lines 287-294): when the
filtered output is non-empty, write the raw line texts to the _all.log
file of the tick in mode w. -/
def collect_write_all (fsc : FileContents) (allPath : String) (cutoff : Int)
    (lines : List SrcLine) : FileContents :=
  let allLogs := (collectFilter cutoff lines).1
  if allLogs.isEmpty then fsc
  else write_w fsc allPath (allLogs.map SrcLine.raw)

/-! ## The remote sweep (docker_log_s3_cleanup.py, cleanup_old_s3_logs) -/

/-- A remote object as returned by the paginated listing: key, LastModified
(epoch seconds) and Size in bytes (lines 131-135). -/
structure S3Object where
  key : String
  lastModified : Int
  size : Nat
deriving DecidableEq, Repr

/-- The statistics accumulated by the scan (lines 116-118), together with
the delete calls issued and the keys actually deleted. -/
structure SweepAcc where
  scanned : Nat
  deleted : Nat
  size_freed : Nat
  deleteCalls : List String
  deletedKeys : List String
deriving DecidableEq, Repr

/-- One object of the scan (lines 131-164): count it as scanned; when its
last-modified time is before the cutoff, attempt delete_object; on success
count it and add its size; on ClientError log and continue with the next
object (lines 162-164). deleteOk is the outcome oracle of delete_object
per key. -/
def cleanup_step (cutoff : Int) (deleteOk : String → Bool) (acc : SweepAcc)
    (obj : S3Object) : SweepAcc :=
  let acc := { acc with scanned := acc.scanned + 1 }
  if obj.lastModified < cutoff then
    let acc := { acc with deleteCalls := acc.deleteCalls ++ [obj.key] }
    if deleteOk obj.key then
      { acc with
        deleted := acc.deleted + 1
        size_freed := acc.size_freed + obj.size
        deletedKeys := acc.deletedKeys ++ [obj.key] }
    else acc
  else acc

/-- cleanup_old_s3_logs (lines 72-209) against a remote listing: keep the
objects under the hostname prefix (the Prefix argument of list_objects_v2,
lines 107-126), scan each in order, delete the ones older than the cutoff,
tolerate individual delete failures, and return the summary with scanned,
deleted and size_freed (lines 191-196). -/
def cleanup_old_s3_logs (pfx : String) (cutoff : Int)
    (deleteOk : String → Bool) (remote : List S3Object) : SweepAcc :=
  (remote.filter (fun o => o.key.startsWith pfx)).foldl
    (cleanup_step cutoff deleteOk)
    { scanned := 0, deleted := 0, size_freed := 0,
      deleteCalls := [], deletedKeys := [] }

/-! ## The cleanup CLI (docker_log_s3_cleanup.py, main, lines 212-256) -/

/-- Outcome of the cleanup CLI: rejected means sys.exit(1) before any S3
call; accepted records whether the short-retention warning fired and the
days value passed to the sweep. -/
inductive CliResult where
  | rejected
  | accepted (warned : Bool) (sweepDays : Int)
deriving DecidableEq, Repr

/-- main of docker_log_s3_cleanup.py (lines 238-250): argparse yields an
integer days; days < 1 exits with code 1 before cleanup_old_s3_logs is
called; days < 7 only logs a warning; in every accepted case the sweep runs
with the given days value. -/
def s3cleanup_main (days : Int) : CliResult :=
  if days < 1 then CliResult.rejected
  else CliResult.accepted (decide (days < 7)) days

/-! ## Concrete scenario inputs -/

/-- In-cutoff stdout record with raw text a1 (timestamp 7200). -/
def lineA1 : SrcLine :=
  { raw := "a1", jsonOk := true, timeStr := "2024-01-27T10:30:45Z",
    timeParse := some 7200, stream := "stdout" }

/-- In-cutoff stdout record with raw text a2. -/
def lineA2 : SrcLine :=
  { raw := "a2", jsonOk := true, timeStr := "2024-01-27T10:30:46Z",
    timeParse := some 7201, stream := "stdout" }

/-- In-cutoff stdout record with raw text a3. -/
def lineA3 : SrcLine :=
  { raw := "a3", jsonOk := true, timeStr := "2024-01-27T10:30:48Z",
    timeParse := some 7203, stream := "stdout" }

/-- In-cutoff stderr record with raw text e1. -/
def lineE1 : SrcLine :=
  { raw := "e1", jsonOk := true, timeStr := "2024-01-27T10:30:47Z",
    timeParse := some 7202, stream := "stderr" }

/-- In-cutoff stdout record with raw text b1. -/
def lineB1 : SrcLine :=
  { raw := "b1", jsonOk := true, timeStr := "2024-01-27T10:31:00Z",
    timeParse := some 7260, stream := "stdout" }

/-- In-cutoff stdout record with raw text b2. -/
def lineB2 : SrcLine :=
  { raw := "b2", jsonOk := true, timeStr := "2024-01-27T10:31:02Z",
    timeParse := some 7262, stream := "stdout" }

/-- A line that is not valid JSON (json.loads raises JSONDecodeError). -/
def lineBad : SrcLine :=
  { raw := "x", jsonOk := false, timeStr := "", timeParse := none, stream := "" }

/-- In-cutoff stdout record with raw text A (for the append-mode scenario). -/
def lineRawA : SrcLine :=
  { raw := "A", jsonOk := true, timeStr := "2024-01-27T10:40:00Z",
    timeParse := some 7800, stream := "stdout" }

/-- In-cutoff stdout record with raw text B (for the append-mode scenario). -/
def lineRawB : SrcLine :=
  { raw := "B", jsonOk := true, timeStr := "2024-01-27T10:42:00Z",
    timeParse := some 7920, stream := "stdout" }

/-- Four in-cutoff records: three stdout, one stderr. -/
def scenarioLinesA : List SrcLine := [lineA1, lineA2, lineE1, lineA3]

/-- Two valid in-cutoff records interleaved with one invalid-JSON line. -/
def scenarioLinesB : List SrcLine := [lineB1, lineBad, lineB2]

/-- A record one second older than the cutoff one_hour_ago 7200 = 3600. -/
def oldLine : SrcLine :=
  { raw := "o", jsonOk := true, timeStr := "2024-01-27T09:30:44Z",
    timeParse := some 3599, stream := "stdout" }

/-- Example container name. -/
def containerC : String := "c"

/-- Example calendar date string. -/
def dateExample : String := "2025-01-27"

/-- The all kind marker of artifact file names. -/
def kindAll : String := "all"

/-- Path of the _all.log artifact written by a tick at 11h05. -/
def pathAll1105 : String := "c/2025-01-27/11h05min_all.log"

/-- Example hostname used as the identity prefix. -/
def hostH : String := "h"

/-- Relative path of the all-stream artifact of an example closed window. -/
def relAll : String := "c/2025-01-27/10h00min_all.log"

/-- Relative path of the errors-stream artifact of the same window. -/
def relErrors : String := "c/2025-01-27/10h00min_errors.log"

/-- A put oracle under which exactly the key of relAll succeeds. -/
def putOkOnlyAll (k : String) : Bool := k == s3_key hostH relAll

/-- Initial local state holding the two artifacts of the example window. -/
def stTwoArtifacts : UpAcc :=
  { files := [LocalFile.plain relAll, LocalFile.plain relErrors],
    remote := [], putCalls := [], uploadedCount := 0 }

/-- Initial local state holding a single all-stream artifact. -/
def stOneArtifact : UpAcc :=
  { files := [LocalFile.plain relAll],
    remote := [], putCalls := [], uploadedCount := 0 }

/-- Example temp-copy path built from a container id and source file name. -/
def tempRelExample : String := "c/2025-01-27/cid_x-json.log_temp"

/-- A put oracle under which every put succeeds. -/
def putAlwaysOk (_k : String) : Bool := true

/-- A put oracle under which every put fails. -/
def putNeverOk (_k : String) : Bool := false

/-- An mtime oracle under which no local artifact is over the age limit. -/
def isOldNever (_r : String) : Bool := false

/-- The empty content map: no file has been written yet. -/
def noContents : FileContents := fun _ => none

end SantuAgent

namespace SantuAgent

/-! ## Theorems: the harvest filter -/

/-- The accumulation loop is a pair of filters over the input lines,
preserving order. -/
theorem collectLoop_eq_filter (cutoff : Int) (lines : List SrcLine)
    (allLogs errorLogs : List SrcLine) :
    collectLoop cutoff lines (allLogs, errorLogs) =
      (allLogs ++ lines.filter (keepLine cutoff),
       errorLogs ++ lines.filter
         (fun l => keepLine cutoff l && l.stream = "stderr")) := by
  induction lines generalizing allLogs errorLogs with
  | nil => simp [collectLoop]
  | cons line rest ih =>
      by_cases hk : keepLine cutoff line
      · by_cases hs : line.stream = "stderr" <;>
          simp [collectLoop, hk, hs, ih, List.filter_cons]
      · simp [collectLoop, hk, ih, List.filter_cons]

theorem collectFilter_eq (cutoff : Int) (lines : List SrcLine) :
    collectFilter cutoff lines =
      (lines.filter (keepLine cutoff),
       lines.filter (fun l => keepLine cutoff l && l.stream = "stderr")) := by
  simp [collectFilter, collectLoop_eq_filter]

/-- C6: every line written to the error_logs output of a harvest is also
written to the all_logs output (the error stream is a sublist, hence a
subset, of the all stream); and a source file with 3 stdout records and 1
stderr record, all within the cutoff, yields 4 lines in all_logs and 1 line
in error_logs. -/
theorem stream_partition_correct :
    (∀ cutoff lines,
       List.Sublist (collectFilter cutoff lines).2
         (collectFilter cutoff lines).1) ∧
    (collectFilter 3600 scenarioLinesA).1.length = 4 ∧
    (collectFilter 3600 scenarioLinesA).2.length = 1 := by
  refine ⟨fun cutoff lines => ?_, by decide, by decide⟩
  rw [collectFilter_eq]
  exact List.monotone_filter_right lines (fun l h => by
    simp only [Bool.and_eq_true] at h
    exact h.1)

/-- C7: a line that is malformed JSON, lacks a usable timestamp, or has an
unparseable timestamp is skipped without affecting the records harvested
from the other lines of the same file; concretely, one invalid-JSON line
interleaved with 2 valid in-cutoff records yields exactly those 2 records
and no error. -/
theorem invalid_line_skipped (cutoff : Int) (pre post : List SrcLine)
    (bad : SrcLine)
    (h : bad.jsonOk = false ∨ bad.timeStr = "" ∨ bad.timeParse = none) :
    collectFilter cutoff (pre ++ bad :: post) =
      collectFilter cutoff (pre ++ post) ∧
    collectFilter 3600 scenarioLinesB = ([lineB1, lineB2], []) := by
  have hkeep : keepLine cutoff bad = false := by
    rcases h with h | h | h <;> simp [keepLine, h]
  constructor
  · simp [collectFilter_eq, List.filter_append, List.filter_cons, hkeep]
  · decide

/-- Witness for invalid_line_skipped at a concrete malformed line. -/
theorem invalid_line_skipped_witness :
    collectFilter 3600 ([lineB1] ++ lineBad :: [lineB2]) =
      collectFilter 3600 ([lineB1] ++ [lineB2]) :=
  (invalid_line_skipped 3600 [lineB1] [lineB2] lineBad (Or.inl rfl)).1

/-- C8: with the code's cutoff policy (one hour before the current
wall-clock time), a record whose parseable timestamp is strictly older than
the cutoff appears in neither the all_logs nor the error_logs output, and
every record kept in all_logs has a parseable timestamp at or after the
cutoff. -/
theorem recency_filter (now : Int) (lines : List SrcLine) (l : SrcLine)
    (ts : Int) (hts : l.timeParse = some ts) (hold : ts < one_hour_ago now) :
    l ∉ (collectFilter (one_hour_ago now) lines).1 ∧
    l ∉ (collectFilter (one_hour_ago now) lines).2 ∧
    ∀ k ∈ (collectFilter (one_hour_ago now) lines).1,
      ∃ u, k.timeParse = some u ∧ one_hour_ago now ≤ u := by
  have hkeep : keepLine (one_hour_ago now) l = false := by
    simp [keepLine, hts, decide_eq_false (not_le.mpr hold)]
  rw [collectFilter_eq]
  refine ⟨?_, ?_, ?_⟩
  · intro hmem
    rw [List.mem_filter] at hmem
    rw [hkeep] at hmem
    exact Bool.false_ne_true hmem.2
  · intro hmem
    rw [List.mem_filter] at hmem
    rw [Bool.and_eq_true, hkeep] at hmem
    exact Bool.false_ne_true hmem.2.1
  · intro k hk
    rw [List.mem_filter] at hk
    have hkk := hk.2
    unfold keepLine at hkk
    rcases hu : k.timeParse with _ | u
    · rw [hu] at hkk
      simp at hkk
    · rw [hu] at hkk
      simp only [Bool.and_eq_true, decide_eq_true_eq] at hkk
      exact ⟨u, rfl, hkk.2⟩

/-- Witness for recency_filter: a record one second older than the cutoff
is excluded from both outputs. -/
theorem recency_filter_witness :
    oldLine ∉ (collectFilter (one_hour_ago 7200) [oldLine, lineA1]).1 ∧
    oldLine ∉ (collectFilter (one_hour_ago 7200) [oldLine, lineA1]).2 :=
  ⟨(recency_filter 7200 _ _ 3599 rfl (by decide)).1,
   (recency_filter 7200 _ _ 3599 rfl (by decide)).2.1⟩

/-! ## Theorems: the upload pass -/

theorem mem_insertFile_of_mem {g f : LocalFile} {fs : List LocalFile}
    (h : g ∈ fs) : g ∈ insertFile f fs := by
  unfold insertFile
  split
  · exact h
  · exact List.mem_cons_of_mem _ h

theorem mem_insertFile_self (f : LocalFile) (fs : List LocalFile) :
    f ∈ insertFile f fs := by
  unfold insertFile
  split
  · assumption
  · exact List.mem_cons_self _ _

theorem insertFile_erase_self (x : LocalFile) (l : List LocalFile) :
    (insertFile x l).erase x = l.erase x := by
  unfold insertFile
  split
  · rfl
  · rename_i h
    rw [List.erase_cons_head, List.erase_of_not_mem h]

/-- uploaded_count never decreases across one iteration of the loop. -/
theorem upload_one_count_mono (host : String) (putOk : String → Bool)
    (acc : UpAcc) (f : String) :
    acc.uploadedCount ≤ (upload_one host putOk acc f).uploadedCount := by
  unfold upload_one
  by_cases hmem : LocalFile.plain f ∈ acc.files
  · by_cases hput : putOk (s3_key host f)
    · simp [hmem, hput]
    · simp [hmem, hput]
  · simp [hmem]

/-- uploaded_count never decreases across the whole loop. -/
theorem foldl_upload_count_mono (host : String) (putOk : String → Bool)
    (fs : List String) (acc : UpAcc) :
    acc.uploadedCount ≤ (fs.foldl (upload_one host putOk) acc).uploadedCount := by
  induction fs generalizing acc with
  | nil => simp
  | cons f rest ih =>
      exact le_trans (upload_one_count_mono host putOk acc f)
        (by simpa using ih (upload_one host putOk acc f))

/-- An iteration that does not raise uploaded_count (skip or failed put)
keeps every plaintext file. -/
theorem upload_one_preserves_plain (host : String) (putOk : String → Bool)
    (acc : UpAcc) (f g : String)
    (hcount : (upload_one host putOk acc f).uploadedCount = acc.uploadedCount)
    (hg : LocalFile.plain g ∈ acc.files) :
    LocalFile.plain g ∈ (upload_one host putOk acc f).files := by
  unfold upload_one at hcount ⊢
  by_cases hmem : LocalFile.plain f ∈ acc.files
  · by_cases hput : putOk (s3_key host f)
    · simp [hmem, hput] at hcount
    · simp only [hmem, if_true, hput, if_false]
      exact (List.mem_erase_of_ne (by simp)).mpr (mem_insertFile_of_mem hg)
  · simpa [hmem] using hg

/-- A loop pass that ends with uploaded_count unchanged keeps every
plaintext file. -/
theorem foldl_upload_preserves_plain (host : String) (putOk : String → Bool)
    (fs : List String) (acc : UpAcc) (g : String)
    (hcount : (fs.foldl (upload_one host putOk) acc).uploadedCount =
      acc.uploadedCount)
    (hg : LocalFile.plain g ∈ acc.files) :
    LocalFile.plain g ∈ (fs.foldl (upload_one host putOk) acc).files := by
  induction fs generalizing acc with
  | nil => simpa using hg
  | cons f rest ih =>
      simp only [List.foldl_cons] at hcount ⊢
      have h1 := upload_one_count_mono host putOk acc f
      have h2 := foldl_upload_count_mono host putOk rest
        (upload_one host putOk acc f)
      have hstep : (upload_one host putOk acc f).uploadedCount =
          acc.uploadedCount := by omega
      exact ih _ (by omega)
        (upload_one_preserves_plain host putOk acc f g hstep hg)

/-- C1 corrected: within the loop a successful put removes both the
plaintext and the compressed copy, and a failed put removes only the
compressed transient copy; but at the end of the pass, if at least one put
in the pass succeeded, upload_to_s3 empties the whole log directory
(cleanup_temp_files followed by the rmtree of cleanup_temp_logs), deleting
the plaintext artifacts of failed puts as well.  A failed artifact's
plaintext remains on disk at the end of the pass exactly when no put in
the pass succeeded. -/
theorem upload_pass_plaintext_deletion (host : String) (putOk : String → Bool)
    (temps : List String) (st : UpAcc) (log_files : List String)
    (hne : log_files ≠ []) :
    (∀ acc f, LocalFile.plain f ∈ acc.files → putOk (s3_key host f) = true →
       (upload_one host putOk acc f).files =
         (acc.files.erase (LocalFile.gz f)).erase (LocalFile.plain f)) ∧
    (∀ acc f, LocalFile.plain f ∈ acc.files → putOk (s3_key host f) = false →
       (upload_one host putOk acc f).files =
         acc.files.erase (LocalFile.gz f)) ∧
    (0 < (log_files.foldl (upload_one host putOk)
        { st with uploadedCount := 0 }).uploadedCount →
       (upload_to_s3 host putOk temps st log_files).files = []) ∧
    ((log_files.foldl (upload_one host putOk)
        { st with uploadedCount := 0 }).uploadedCount = 0 →
       ∀ g, LocalFile.plain g ∈ st.files →
         LocalFile.plain g ∈ (upload_to_s3 host putOk temps st log_files).files) := by
  have hempty : log_files.isEmpty = false := by
    cases log_files with
    | nil => exact absurd rfl hne
    | cons a l => rfl
  refine ⟨?_, ?_, ?_, ?_⟩
  · intro acc f hmem hput
    unfold upload_one
    simp only [hmem, if_true, hput, if_true]
    rw [List.erase_comm, insertFile_erase_self]
  · intro acc f hmem hput
    unfold upload_one
    simp only [hmem, if_true, hput, Bool.false_eq_true, if_false]
    rw [insertFile_erase_self]
  · intro hpos
    unfold upload_to_s3
    simp only [hempty, Bool.false_eq_true, if_false]
    simp only [hpos, if_true]
    rfl
  · intro hzero g hg
    unfold upload_to_s3
    simp only [hempty, Bool.false_eq_true, if_false]
    rw [hzero]
    simp only [lt_irrefl, if_false]
    exact foldl_upload_preserves_plain host putOk log_files
      { st with uploadedCount := 0 } g hzero hg

/-- Witness for upload_pass_plaintext_deletion: a pass in which the only
put fails leaves the plaintext artifact on disk. -/
theorem upload_pass_plaintext_deletion_witness :
    LocalFile.plain relAll ∈
      (upload_to_s3 hostH putNeverOk [] stOneArtifact [relAll]).files :=
  (upload_pass_plaintext_deletion hostH putNeverOk [] stOneArtifact [relAll]
      (by decide)).2.2.2 (by decide) relAll (by decide)

/-- C1 as stated is refuted: in a pass over the two artifacts of a window
in which the put for the all artifact succeeds and the put for the errors
artifact fails, the errors artifact's plaintext is nevertheless deleted,
because one success triggers the cleanup that empties the whole log
directory. -/
theorem upload_delete_iff_success_cex :
    putOkOnlyAll (s3_key hostH relErrors) = false ∧
    s3_key hostH relErrors ∈
      (upload_to_s3 hostH putOkOnlyAll [] stTwoArtifacts
        [relAll, relErrors]).putCalls ∧
    LocalFile.plain relErrors ∉
      (upload_to_s3 hostH putOkOnlyAll [] stTwoArtifacts
        [relAll, relErrors]).files := by
  decide

/-! ## Theorems: artifact writes and naming -/

/-- C2 corrected: the collector opens the target artifact with mode w,
which truncates: after a tick whose filtered output is non-empty, the file
holds exactly that tick's output (the raw line texts), whatever its prior
content was; and ticks at different minutes of the same hour write
different files (the name embeds the minute), so no per-hour concatenation
takes place. -/
theorem collect_write_truncates (fsc : FileContents) (allPath : String)
    (cutoff : Int) (lines : List SrcLine)
    (h : (collectFilter cutoff lines).1 ≠ []) :
    collect_write_all fsc allPath cutoff lines allPath =
      some (((collectFilter cutoff lines).1).map SrcLine.raw) ∧
    artifact_file_name 11 5 kindAll ≠ artifact_file_name 11 7 kindAll := by
  constructor
  · have hempty : ((collectFilter cutoff lines).1).isEmpty = false := by
      cases hc : (collectFilter cutoff lines).1 with
      | nil => exact absurd hc h
      | cons a l => rfl
    unfold collect_write_all
    simp [hempty, write_w]
  · decide

/-- Witness for collect_write_truncates at a concrete one-line tick. -/
theorem collect_write_truncates_witness :
    collect_write_all noContents pathAll1105 0 [lineRawA] pathAll1105 =
      some (((collectFilter 0 [lineRawA]).1).map SrcLine.raw) ∧
    artifact_file_name 11 5 kindAll ≠ artifact_file_name 11 7 kindAll :=
  collect_write_truncates noContents pathAll1105 0 [lineRawA] (by decide)

/-- C2 as stated is refuted: two ticks writing the same target file do not
concatenate; the second write (mode w) replaces the first, so the final
content is the last tick's output instead of the ordered concatenation of
both ticks' outputs. -/
theorem append_mode_cex :
    collect_write_all (collect_write_all noContents pathAll1105 0 [lineRawA])
      pathAll1105 0 [lineRawB] pathAll1105 = some (List.map SrcLine.raw [lineRawB]) ∧
    List.map SrcLine.raw [lineRawB] ≠
      List.map SrcLine.raw [lineRawA, lineRawB] := by
  exact ⟨rfl, by decide⟩

/-! ## Theorems: the main loop's upload gate -/

/-- C3 corrected: the upload tick of the main loop is gated only by the
elapsed-time test (at least UPLOAD_INTERVAL seconds since the last upload)
and by the presence of artifact files; it consults no grace-window
predicate.  When the interval has not elapsed, or no artifact file exists,
the tick is a no-op that is not an error (the state, including putCalls and
the local files, is returned unchanged); whenever the interval has elapsed
and artifacts exist, the pass runs regardless of the minute of the hour. -/
theorem main_upload_gate (host : String) (putOk isOld : String → Bool)
    (temps : List String) (st : UpAcc) (t lt : Nat) :
    (mainUploadDue t lt = false →
       mainUploadTick host putOk isOld temps st t lt = st) ∧
    (mainLogFiles st.files = [] →
       mainUploadTick host putOk isOld temps st t lt = st) ∧
    (mainUploadDue t lt = true → mainLogFiles st.files ≠ [] →
       mainUploadTick host putOk isOld temps st t lt =
         { upload_to_s3 host putOk temps st (mainLogFiles st.files) with
           files := cleanup_old_logs isOld
             (upload_to_s3 host putOk temps st (mainLogFiles st.files)).files }) := by
  refine ⟨?_, ?_, ?_⟩
  · intro h
    simp [mainUploadTick, h]
  · intro h
    by_cases hdue : mainUploadDue t lt <;> simp [mainUploadTick, hdue, h]
  · intro h1 h2
    have hempty : (mainLogFiles st.files).isEmpty = false := by
      cases hc : mainLogFiles st.files with
      | nil => exact absurd hc h2
      | cons a l => rfl
    simp [mainUploadTick, h1, hempty]

/-- Witness for main_upload_gate: before the interval has elapsed the tick
changes nothing. -/
theorem main_upload_gate_witness :
    mainUploadTick hostH putAlwaysOk isOldNever [] stOneArtifact 0 0 =
      stOneArtifact :=
  (main_upload_gate hostH putAlwaysOk isOldNever [] stOneArtifact 0 0).1
    (by decide)

/-- C3 as stated is refuted: at wall-clock second 5400 the minute of the
hour is 30, outside any start-of-hour grace window of up to 30 minutes
(the spec-modelled predicate with the representative length 5 is false),
yet the due upload tick performs a remote put and deletes local files. -/
theorem grace_window_gate_cex :
    isUploadGraceWindow 5 5400 = false ∧
    (mainUploadTick hostH putAlwaysOk isOldNever [] stOneArtifact
      5400 0).putCalls ≠ [] ∧
    (mainUploadTick hostH putAlwaysOk isOldNever [] stOneArtifact
      5400 0).files = [] := by
  decide

/-! ## Theorems: the temp-copy lifecycle -/

/-- C4 corrected: the private temp copy of a source log file is still
present, and recorded in temp_files_to_cleanup, when the harvest of that
file returns; it is deleted only later, by the cleanup_temp_files step
that upload_to_s3 runs after a pass with at least one successful upload. -/
theorem temp_file_lifecycle (fs : List LocalFile) (temps : List String)
    (tempRel allRel errRel : String) (cutoff : Int) (lines : List SrcLine) :
    LocalFile.plain tempRel ∈
      (collect_one_file fs temps tempRel allRel errRel cutoff lines).1 ∧
    tempRel ∈ (collect_one_file fs temps tempRel allRel errRel cutoff lines).2 ∧
    ∀ fs2, LocalFile.plain tempRel ∉
      cleanup_temp_files
        (collect_one_file fs temps tempRel allRel errRel cutoff lines).2 fs2 := by
  have hsnd : (collect_one_file fs temps tempRel allRel errRel cutoff lines).2 =
      temps ++ [tempRel] := rfl
  refine ⟨?_, ?_, ?_⟩
  · by_cases hA : ((collectFilter cutoff lines).1).isEmpty <;>
      by_cases hE : ((collectFilter cutoff lines).2).isEmpty <;>
        simp only [collect_one_file, hA, hE, Bool.false_eq_true,
          if_true, if_false] <;>
        first
          | exact mem_insertFile_self _ _
          | exact mem_insertFile_of_mem (mem_insertFile_self _ _)
          | exact mem_insertFile_of_mem
              (mem_insertFile_of_mem (mem_insertFile_self _ _))
  · rw [hsnd]
    exact List.mem_append_right _ (List.mem_singleton_self _)
  · intro fs2 hmem
    unfold cleanup_temp_files at hmem
    rw [List.mem_filter] at hmem
    have hnotin := of_decide_eq_true hmem.2
    exact hnotin (by
      rw [hsnd]
      exact List.mem_map_of_mem _
        (List.mem_append_right _ (List.mem_singleton_self _)))

/-- C4 as stated is refuted: after the harvest of one source file returns,
the temp copy (a path matching the _temp naming convention) is still in
the local file set. -/
theorem temp_removed_at_return_cex :
    LocalFile.plain tempRelExample ∈
      (collect_one_file [] [] tempRelExample relAll relErrors
        0 [lineRawA]).1 := by
  decide

/-! ## Theorems: the remote key mapping -/

/-- C5 corrected: the remote key embeds the artifact's path relative to
log_base_dir, whose file name carries the actual collection minute; the
key is a pure and injective function of the identity prefix and that
relative path, so two different local artifacts never map to the same key,
and the concrete layout is prefix/container/date/HHhMMmin_kind.log.gz. -/
theorem s3_key_pure_injective (host r1 r2 : String)
    (h : s3_key host r1 = s3_key host r2) :
    r1 = r2 ∧
    s3_key hostH (artifact_rel containerC dateExample 11 23 kindAll) =
      "h/c/2025-01-27/11h23min_all.log.gz" := by
  constructor
  · unfold s3_key at h
    have hd := congrArg String.data h
    simp only [String.data_append] at hd
    exact String.ext (List.append_cancel_left (List.append_cancel_right hd))
  · decide

/-- Witness for s3_key_pure_injective at equal inputs. -/
theorem s3_key_pure_injective_witness :
    relAll = relAll ∧
    s3_key hostH (artifact_rel containerC dateExample 11 23 kindAll) =
      "h/c/2025-01-27/11h23min_all.log.gz" :=
  s3_key_pure_injective hostH relAll relAll rfl

/-- C5 as stated is refuted: two artifacts of the same window (container,
date, hour), same kind and same identity prefix, collected at minutes 23
and 25, map to different keys, so the key is not a pure function of
window plus kind plus prefix; and the key actually produced for minute 23
differs from the 00-minute layout the claim prescribes. -/
theorem s3_key_window_cex :
    s3_key hostH (artifact_rel containerC dateExample 11 23 kindAll) ≠
      s3_key hostH (artifact_rel containerC dateExample 11 25 kindAll) ∧
    s3_key hostH (artifact_rel containerC dateExample 11 23 kindAll) ≠
      s3_key hostH (artifact_rel containerC dateExample 11 0 kindAll) := by
  decide

/-! ## Theorems: the remote sweep -/

/-- Closed form of the scan fold: every listed object is scanned, a delete
is attempted exactly on the objects older than the cutoff, and the deleted
count, freed bytes and deleted keys come from the old objects whose delete
call succeeded. -/
theorem sweep_foldl_eq (cutoff : Int) (deleteOk : String → Bool)
    (objs : List S3Object) (acc : SweepAcc) :
    objs.foldl (cleanup_step cutoff deleteOk) acc =
      { scanned := acc.scanned + objs.length
        deleted := acc.deleted + (objs.filter (fun o =>
          decide (o.lastModified < cutoff) && deleteOk o.key)).length
        size_freed := acc.size_freed + ((objs.filter (fun o =>
          decide (o.lastModified < cutoff) && deleteOk o.key)).map
            S3Object.size).sum
        deleteCalls := acc.deleteCalls ++ (objs.filter (fun o =>
          decide (o.lastModified < cutoff))).map S3Object.key
        deletedKeys := acc.deletedKeys ++ (objs.filter (fun o =>
          decide (o.lastModified < cutoff) && deleteOk o.key)).map
            S3Object.key } := by
  induction objs generalizing acc with
  | nil => simp
  | cons o rest ih =>
      by_cases hold : o.lastModified < cutoff
      · by_cases hdel : deleteOk o.key
        · simp [cleanup_step, hold, hdel, ih, List.filter_cons]
          omega
        · simp [cleanup_step, hold, hdel, ih, List.filter_cons]
          omega
      · simp [cleanup_step, hold, ih, List.filter_cons]
        omega

/-- C9: the remote sweep scans every object listed under the identity
prefix, attempts deletion exactly on those whose last-modified time is
older than the cutoff, counts and sums only the successful deletions, and
an individual delete failure neither aborts the remaining scan (every
listed object is still scanned and every later old object still deleted)
nor contributes to the deleted count or freed bytes. -/
theorem remote_sweep_summary (pfx : String) (cutoff : Int)
    (deleteOk : String → Bool) (remote : List S3Object) :
    (cleanup_old_s3_logs pfx cutoff deleteOk remote).scanned =
      (remote.filter (fun o => o.key.startsWith pfx)).length ∧
    (cleanup_old_s3_logs pfx cutoff deleteOk remote).deleteCalls =
      ((remote.filter (fun o => o.key.startsWith pfx)).filter (fun o =>
        decide (o.lastModified < cutoff))).map S3Object.key ∧
    (cleanup_old_s3_logs pfx cutoff deleteOk remote).deletedKeys =
      ((remote.filter (fun o => o.key.startsWith pfx)).filter (fun o =>
        decide (o.lastModified < cutoff) && deleteOk o.key)).map S3Object.key ∧
    (cleanup_old_s3_logs pfx cutoff deleteOk remote).deleted =
      ((remote.filter (fun o => o.key.startsWith pfx)).filter (fun o =>
        decide (o.lastModified < cutoff) && deleteOk o.key)).length ∧
    (cleanup_old_s3_logs pfx cutoff deleteOk remote).size_freed =
      (((remote.filter (fun o => o.key.startsWith pfx)).filter (fun o =>
        decide (o.lastModified < cutoff) && deleteOk o.key)).map
          S3Object.size).sum := by
  unfold cleanup_old_s3_logs
  rw [sweep_foldl_eq]
  simp

/-! ## Theorems: the cleanup CLI -/

/-- C10: the cleanup CLI rejects every days value strictly below 1 with a
non-zero exit before any remote contact, and accepts every value of 1 or
more, running the sweep with that value; values below 7 additionally fire
the warning, values of 7 or more do not. -/
theorem cli_days_validation (days : Int) :
    (days < 1 → s3cleanup_main days = CliResult.rejected) ∧
    (1 ≤ days →
       s3cleanup_main days = CliResult.accepted (decide (days < 7)) days) := by
  constructor
  · intro h
    simp [s3cleanup_main, h]
  · intro h
    simp [s3cleanup_main, not_lt.mpr h]

/-- Witness for cli_days_validation at days 0, 3 and 45. -/
theorem cli_days_validation_witness :
    s3cleanup_main 0 = CliResult.rejected ∧
    s3cleanup_main 3 = CliResult.accepted true 3 ∧
    s3cleanup_main 45 = CliResult.accepted false 45 :=
  ⟨(cli_days_validation 0).1 (by decide),
   (cli_days_validation 3).2 (by decide),
   (cli_days_validation 45).2 (by decide)⟩

end SantuAgent
